import Mathlib

/-!
Shallow embedding of the MoodBeats inference server
(`src/assets/ml/server/flask_server.py`): the feature-extraction pipeline
(`extract_features`), the ensemble endpoint (`predict_mood`) and the
mood-to-catalog-range endpoint (`recommend_songs`).

Python floats are embedded as exact rationals (`ℚ`).  The two
irrational-valued numeric library primitives used by the statistics
(square root inside `np.std` / `scipy.stats.skew`, natural logarithm
inside `scipy.stats.entropy`) are abstracted as a parameter structure
`NumPrims`; theorems assume only the facts of the real functions they
need (e.g. `sqrt 0 = 0`).  The two fitted model artifacts are opaque
(`joblib` pickles), so `predict_mood` is parametrised over their
`transform` / `predict` / `predict_proba` behaviours, and over the
random Gaussian synthesiser used for scalar heart-rate readings.
Python exceptions are embedded as `Except`; the Flask error responses
`(jsonify({"error": ...}), status)` as an error constructor carrying
the HTTP status and message.
-/

/-- Opaque numeric library primitives (irrational-valued on `ℚ`). -/
structure NumPrims where
  sqrt : ℚ → ℚ
  log : ℚ → ℚ

/-- Embedding of `np.mean` over a sample list (0 on the empty list, never hit by callers). -/
def meanQ (l : List ℚ) : ℚ := l.sum / l.length

/-- The `k`-th central sample moment `sum((x - mean)^k) / n` (the biased scipy moments). -/
def centralMoment (l : List ℚ) (k : Nat) : ℚ :=
  (l.map (fun x => (x - meanQ l) ^ k)).sum / l.length

/-- Population variance, the square of `np.std`. -/
def varianceQ (l : List ℚ) : ℚ := centralMoment l 2

/-- Embedding of `np.std`: square root of the population variance. -/
def stdQ (P : NumPrims) (l : List ℚ) : ℚ := P.sqrt (varianceQ l)

/-- Embedding of `np.min` over a sample list (0 on the empty list, never hit by callers). -/
def minQ : List ℚ → ℚ
  | [] => 0
  | x :: xs => xs.foldl min x

/-- Embedding of `np.max` over a sample list (0 on the empty list, never hit by callers). -/
def maxQ : List ℚ → ℚ
  | [] => 0
  | x :: xs => xs.foldl max x

/-- Energy `np.sum(data**2) / len(data)` (flask_server.py line 52 / 77). -/
def energyQ (l : List ℚ) : ℚ := (l.map (fun x => x ^ 2)).sum / l.length

/-- Embedding of `scipy.stats.skew` (biased): `m3 / m2^(3/2)`. -/
def skewQ (P : NumPrims) (l : List ℚ) : ℚ :=
  centralMoment l 3 / (varianceQ l * P.sqrt (varianceQ l))

/-- Embedding of `scipy.stats.kurtosis` (Fisher, biased): `m4 / m2^2 - 3`. -/
def kurtQ (l : List ℚ) : ℚ := centralMoment l 4 / varianceQ l ^ 2 - 3

/-- Embedding of `scipy.stats.entropy pk`: normalise `pk` to sum 1, then `-sum(p * log p)`. -/
def entropyQ (P : NumPrims) (pk : List ℚ) : ℚ :=
  -((pk.map (fun q => q / pk.sum * P.log (q / pk.sum))).sum)

/-- Embedding of `np.histogram(data, bins=10, density=True)[0]`: 10 equal-width bins over
`[min data, max data]` (the degenerate zero-width range is expanded by 0.5 on
each side, as numpy does); bin counts divided by `n * binwidth`.  A sample
lands in bin `min 9 ⌊(x - lo)/width⌋` (the last bin is right-closed). -/
def histDensity (data : List ℚ) : List ℚ :=
  let lo0 := minQ data
  let hi0 := maxQ data
  let lo := if lo0 = hi0 then lo0 - 1/2 else lo0
  let hi := if lo0 = hi0 then hi0 + 1/2 else hi0
  let width := (hi - lo) / 10
  (List.range 10).map (fun i =>
    ((data.filter (fun x => min 9 ⌊(x - lo) / width⌋ == Int.ofNat i)).length : ℚ)
      / (data.length * width))

/-- The 8 statistics computed for the heart-rate block (flask_server.py
lines 47-56) and, identically, for each accelerometer axis (lines 72-81):
mean, std, min, max, energy, skew (0 unless `n > 2`), kurtosis (0 unless
`n > 3`), entropy of the smoothed density histogram (`+ 1e-6` per bin). -/
def statBlock (P : NumPrims) (data : List ℚ) : List ℚ :=
  [meanQ data,
   stdQ P data,
   minQ data,
   maxQ data,
   energyQ data,
   if 2 < data.length then skewQ P data else 0,
   if 3 < data.length then kurtQ data else 0,
   entropyQ P ((histDensity data).map (fun q => q + 1/1000000))]

/-- Accelerometer payload: either a nested list `[[x, y, z], ...]` or a flat
list of numbers (the JSON shapes distinguished at flask_server.py line 62 by
`isinstance(acc_data[0], list) and len(acc_data[0]) == 3`). -/
inductive AccData where
  | nested : List (List ℚ) → AccData
  | flat : List ℚ → AccData
deriving DecidableEq

/-- Length `len(acc_data)` on either payload shape. -/
def accLen : AccData → Nat
  | .nested rows => rows.length
  | .flat xs => xs.length

/-- Row-major regrouping into consecutive triples (the effect of
`np.reshape(-1, 3)` on a flat array whose length is divisible by 3). -/
def chunk3 : List ℚ → List (List ℚ)
  | a :: b :: c :: rest => [a, b, c] :: chunk3 rest
  | _ => []

/-- Column `j` of the reshaped accelerometer matrix (`acc_data[:, axis]`). -/
def col (j : Nat) (rows : List (List ℚ)) : List ℚ :=
  rows.map (fun r => r.getD j 0)

/-- Lines 61-67: if the first element is a 3-element list the input is taken
as already `[[x, y, z], ...]` (`np.array` then requires every row to have
length 3); otherwise `np.array(acc_data).reshape(-1, 3)` flattens the
(rectangular) input row-major and regroups by 3, raising `ValueError` when
the flattened length is not divisible by 3. -/
def reshapeAcc : AccData → Except String (List (List ℚ))
  | .nested rows =>
    if (rows.head?.map List.length).getD 0 = 3 then
      if rows.all (fun r => r.length = 3) then .ok rows
      else .error "setting an array element with a sequence"
    else
      if rows.all (fun r => r.length = (rows.head?.map List.length).getD 0) then
        if rows.flatten.length % 3 = 0 then .ok (chunk3 rows.flatten)
        else .error "cannot reshape array"
      else .error "setting an array element with a sequence"
  | .flat xs =>
    if xs.length % 3 = 0 then .ok (chunk3 xs)
    else .error "cannot reshape array"

/-- Embedding of `extract_features(hr_data, acc_data)` (flask_server.py lines 43-89):
8 heart-rate statistics, then either 8 statistics per accelerometer axis
(x, y, z) or 24 zeros when accelerometer data is absent or empty. The
returned 32-vector is the single row of the `reshape(1, -1)` matrix; a
reshape failure is the raised Python exception. -/
def extract_features (P : NumPrims) (hr_data : List ℚ) (acc_data : Option AccData) :
    Except String (List ℚ) :=
  let hr_features := statBlock P hr_data
  match acc_data with
  | some a =>
    if 0 < accLen a then
      match reshapeAcc a with
      | .ok rows =>
        .ok (hr_features ++
          (statBlock P (col 0 rows) ++ (statBlock P (col 1 rows) ++ statBlock P (col 2 rows))))
      | .error e => .error e
    else .ok (hr_features ++ List.replicate 24 0)
  | none => .ok (hr_features ++ List.replicate 24 0)

/-- The mood list of line 40, MOOD_NAMES = ["Happy", "Angry", "Sad", "Relaxed"]. -/
def MOOD_NAMES : List String := ["Happy", "Angry", "Sad", "Relaxed"]

/-- Embedding of `np.argmax`: index of the maximum value, first occurrence on ties
(a later index replaces the running best only when strictly greater). -/
def argmaxIdx (l : List ℚ) : Nat :=
  (List.range l.length).foldl
    (fun best i => if l.getD best 0 < l.getD i 0 then i else best) 0

/-- Insert index `i` into an ascending (by value) index list, after any
index of equal value already present. -/
def insertByVal (l : List ℚ) (i : Nat) : List Nat → List Nat
  | [] => [i]
  | j :: js => if l.getD i 0 < l.getD j 0 then i :: j :: js else j :: insertByVal l i js

/-- Embedding of `np.argsort`: the indices of `l` in ascending order of value (stable). -/
def argsortIdx (l : List ℚ) : List Nat :=
  (List.range l.length).foldl (fun acc i => insertByVal l i acc) []

/-- Embedding of `np.argsort(combined_proba)[-2]` (line 134): second-from-last position
of the full ascending sort. -/
def secondaryIdx (l : List ℚ) : Nat := (argsortIdx l).getD (l.length - 2) 0

/-- Line 127: `0.6 * proba1 + 0.4 * proba2`; numpy elementwise addition
raises `ValueError` on mismatched 1-D lengths. -/
def combineProba (p1 p2 : List ℚ) : Except String (List ℚ) :=
  if p1.length = p2.length then
    .ok (List.zipWith (fun a b => 0.6 * a + 0.4 * b) p1 p2)
  else .error "operands could not be broadcast together"

/-- Lines 138-140: `{MOOD_NAMES[i]: combined_proba[i] for i in range(4)}`. -/
def confidenceMap (combined : List ℚ) : List (String × ℚ) :=
  (List.range MOOD_NAMES.length).map (fun i => (MOOD_NAMES.getD i "", combined.getD i 0))

/-- The heart_rate request field: a scalar reading or a sequence. -/
inductive HRInput where
  | scalar : ℚ → HRInput
  | seq : List ℚ → HRInput
deriving DecidableEq

/-- The JSON body of a `/api/predict-mood` request (the two fields read). -/
structure PredictRequest where
  heart_rate : Option HRInput
  accelerometer : Option AccData

/-- Opaque behaviour of the two loaded (scaler, classifier) artifact pairs:
`transform`, `predict(...)[0]` and `predict_proba(...)[0]` on a feature row. -/
structure Models where
  scaler1 : List ℚ → List ℚ
  scaler2 : List ℚ → List ℚ
  predict1 : List ℚ → Nat
  predict2 : List ℚ → Nat
  proba1 : List ℚ → List ℚ
  proba2 : List ℚ → List ℚ

/-- An endpoint response: either the success JSON of `/api/predict-mood`
(primary, secondary, model1/model2 predicted names, confidence map) or an
`(jsonify({"error": msg}), status)` error. -/
inductive Response where
  | ok : String → String → String → String → List (String × ℚ) → Response
  | err : Nat → String → Response
deriving DecidableEq

/-- Python truthiness of the heart_rate field (line 101 `if not heart_rate`):
`None`, the scalar `0`/`0.0` and the empty list are falsy. -/
def hrTruthy : Option HRInput → Bool
  | none => false
  | some (.scalar x) => !(x == 0)
  | some (.seq xs) => !xs.isEmpty

/-- Embedding of `predict_mood` (flask_server.py lines 92-154), parametrised over the
loaded artifacts `M`, numeric primitives `P` and the clipped Gaussian
sequence `synth` that `np.random.normal` + `np.clip` would synthesise for a
scalar heart-rate reading (lines 105-107).  Any exception raised inside the
`try` block (reshape `ValueError`, `MOOD_NAMES[...]` `IndexError`, proba
broadcast `ValueError`) is reported as a status-500 error response; a falsy
heart_rate field is rejected up-front with status 400. -/
def predict_mood (M : Models) (P : NumPrims) (synth : ℚ → List ℚ)
    (req : PredictRequest) : Response :=
  if hrTruthy req.heart_rate then
    let hr_sequence : List ℚ :=
      match req.heart_rate with
      | some (.scalar x) => synth x
      | some (.seq xs) => xs
      | none => []
    match extract_features P hr_sequence req.accelerometer with
    | .error e => .err 500 e
    | .ok features =>
      let scaled1 := M.scaler1 features
      let scaled2 := M.scaler2 features
      let pred1 := M.predict1 scaled1
      let pred2 := M.predict2 scaled2
      match combineProba (M.proba1 scaled1) (M.proba2 scaled2) with
      | .error e => .err 500 e
      | .ok combined_proba =>
        match MOOD_NAMES.get? (argmaxIdx combined_proba) with
        | none => .err 500 "list index out of range"
        | some final_mood =>
          match MOOD_NAMES.get? (secondaryIdx combined_proba) with
          | none => .err 500 "list index out of range"
          | some secondary_mood =>
            if MOOD_NAMES.length ≤ combined_proba.length then
              match MOOD_NAMES.get? pred1, MOOD_NAMES.get? pred2 with
              | some m1, some m2 =>
                .ok final_mood secondary_mood m1 m2 (confidenceMap combined_proba)
              | _, _ => .err 500 "list index out of range"
            else .err 500 "list index out of range"
  else .err 400 "Heart rate data is required"

/-- The `song_ranges` dict (lines 169-174), keyed by the mood index. -/
def song_ranges : Nat → Option (Nat × Nat)
  | 0 => some (1, 20)
  | 1 => some (61, 80)
  | 2 => some (21, 40)
  | 3 => some (41, 60)
  | _ => none

/-- A `/api/recommend-songs` response: the mood echoed with its catalog
index range, or an error status. -/
inductive RecResponse where
  | ok : String → Nat × Nat → RecResponse
  | err : Nat → RecResponse
deriving DecidableEq

/-- Embedding of `recommend_songs` (lines 156-191) up to the catalog filter: an invalid
or falsy mood is rejected with status 400, otherwise the index range of the mood
is looked up via `MOOD_NAMES.index(mood)` (a missing dict key would be a
status-500 `KeyError`). -/
def recommend_songs (mood : String) : RecResponse :=
  if mood = "" ∨ mood ∉ MOOD_NAMES then .err 400
  else
    match song_ranges (MOOD_NAMES.findIdx (fun m => m == mood)) with
    | some r => .ok mood r
    | none => .err 500

/-! ### Helper lemmas -/

theorem statBlock_length (P : NumPrims) (l : List ℚ) : (statBlock P l).length = 8 := by
  simp [statBlock]

theorem getD_replicate24_zero (k : Nat) : (List.replicate 24 (0:ℚ)).getD k 0 = 0 := by
  rw [List.getD_eq_getElem?_getD]
  exact List.getElem?_getD_replicate_default_eq 0 24 k

/-! ### Claims -/

/-- C9: the mood-to-catalog-range mapping is total and exhaustive over the
fixed ordered enumeration `MOOD_NAMES = [Happy, Angry, Sad, Relaxed]` and
returns exactly the literal ranges Happy:[1,20], Angry:[61,80], Sad:[21,40],
Relaxed:[41,60]. -/
theorem claim_C9 :
    MOOD_NAMES = ["Happy", "Angry", "Sad", "Relaxed"] ∧
    recommend_songs "Happy" = .ok "Happy" (1, 20) ∧
    recommend_songs "Angry" = .ok "Angry" (61, 80) ∧
    recommend_songs "Sad" = .ok "Sad" (21, 40) ∧
    recommend_songs "Relaxed" = .ok "Relaxed" (41, 60) ∧
    ∀ m ∈ MOOD_NAMES, recommend_songs m ≠ .err 400 ∧ recommend_songs m ≠ .err 500 := by
  decide

/-- C10: the mood-prediction endpoint rejects with the missing-heart-rate
400 error every request whose heart_rate field is Python-falsy: an absent
field, an empty sequence, and also the scalar reading 0 (or 0.0), which is
therefore never synthesized into a Gaussian sequence (the result does not
depend on the synthesiser `synth`). -/
theorem claim_C10 (M : Models) (P : NumPrims) (synth : ℚ → List ℚ) (req : PredictRequest)
    (hfalsy : req.heart_rate = none ∨ req.heart_rate = some (.scalar 0) ∨
      req.heart_rate = some (.seq [])) :
    predict_mood M P synth req = .err 400 "Heart rate data is required" := by
  rcases hfalsy with h | h | h <;> simp [predict_mood, hrTruthy, h]

/-- Witness for C10 at the scalar reading 0. -/
theorem claim_C10_witness :
    predict_mood ⟨id, id, fun _ => 0, fun _ => 0, fun _ => [], fun _ => []⟩
      ⟨fun _ => 0, fun _ => 0⟩ (fun _ => [42]) ⟨some (.scalar 0), none⟩ =
      .err 400 "Heart rate data is required" :=
  claim_C10 _ _ _ _ (Or.inr (Or.inl rfl))

/-- C2: for every non-empty heart-rate sequence, when accelerometer data is
absent or empty, `extract_features` succeeds with a feature vector of length
exactly 32 whose entries at indices 8 through 31 are all exactly 0, the
first 8 entries being the heart-rate statistics in the fixed order
mean, std, min, max, energy, skew, kurtosis, entropy. -/
theorem claim_C2 (P : NumPrims) (hr : List ℚ) (_hnil : hr ≠ []) (acc : Option AccData)
    (hacc : acc = none ∨ ∃ a, acc = some a ∧ accLen a = 0) :
    ∃ v, extract_features P hr acc = .ok v ∧
      v.length = 32 ∧
      (∀ i, 8 ≤ i → i < 32 → v.getD i 0 = 0) ∧
      v.take 8 = [meanQ hr, stdQ P hr, minQ hr, maxQ hr, energyQ hr,
        if 2 < hr.length then skewQ P hr else 0,
        if 3 < hr.length then kurtQ hr else 0,
        entropyQ P ((histDensity hr).map (fun q => q + 1/1000000))] := by
  have hsb : (statBlock P hr).length = 8 := statBlock_length P hr
  have hmain : ∀ h : extract_features P hr acc = .ok (statBlock P hr ++ List.replicate 24 0),
      ∃ v, extract_features P hr acc = .ok v ∧
        v.length = 32 ∧
        (∀ i, 8 ≤ i → i < 32 → v.getD i 0 = 0) ∧
        v.take 8 = [meanQ hr, stdQ P hr, minQ hr, maxQ hr, energyQ hr,
          if 2 < hr.length then skewQ P hr else 0,
          if 3 < hr.length then kurtQ hr else 0,
          entropyQ P ((histDensity hr).map (fun q => q + 1/1000000))] := by
    intro h
    refine ⟨_, h, ?_, ?_, ?_⟩
    · simp [List.length_append, hsb]
    · intro i h8 h32
      rw [List.getD_append_right _ _ _ _ (by rw [hsb]; exact h8), hsb]
      exact getD_replicate24_zero (i - 8)
    · rw [List.take_left' hsb]
      rfl
  rcases hacc with h | ⟨a, ha, hlen⟩
  · exact hmain (by rw [h]; rfl)
  · exact hmain (by rw [ha]; simp [extract_features, hlen])

/-- Witness for C2 on a concrete heart-rate window with no accelerometer. -/
theorem claim_C2_witness :
    ∃ v, extract_features ⟨fun _ => 0, fun _ => 0⟩ [70, 72, 68, 75] none = .ok v ∧
      v.length = 32 ∧
      (∀ i, 8 ≤ i → i < 32 → v.getD i 0 = 0) ∧
      v.take 8 = [meanQ [70, 72, 68, 75], stdQ ⟨fun _ => 0, fun _ => 0⟩ [70, 72, 68, 75],
        minQ [70, 72, 68, 75], maxQ [70, 72, 68, 75], energyQ [70, 72, 68, 75],
        if 2 < ([70, 72, 68, 75] : List ℚ).length then
          skewQ ⟨fun _ => 0, fun _ => 0⟩ [70, 72, 68, 75] else 0,
        if 3 < ([70, 72, 68, 75] : List ℚ).length then kurtQ [70, 72, 68, 75] else 0,
        entropyQ ⟨fun _ => 0, fun _ => 0⟩
          ((histDensity [70, 72, 68, 75]).map (fun q => q + 1/1000000))] :=
  claim_C2 ⟨fun _ => 0, fun _ => 0⟩ [70, 72, 68, 75] (by simp) none (Or.inl rfl)

theorem flatten_length_mod3 (rows : List (List ℚ)) (h3 : ∀ r ∈ rows, r.length = 3) :
    rows.flatten.length % 3 = 0 := by
  induction rows with
  | nil => rfl
  | cons r rest ih =>
    have hr3 : r.length = 3 := h3 r (List.mem_cons_self r rest)
    have hrest := ih (fun x hx => h3 x (List.mem_cons_of_mem _ hx))
    rw [List.flatten_cons, List.length_append, hr3]
    omega

theorem chunk3_flatten (rows : List (List ℚ)) (h3 : ∀ r ∈ rows, r.length = 3) :
    chunk3 rows.flatten = rows := by
  induction rows with
  | nil => rfl
  | cons r rest ih =>
    have hr3 : r.length = 3 := h3 r (List.mem_cons_self r rest)
    match r, hr3 with
    | [a, b, c], _ =>
      rw [List.flatten_cons]
      show [a, b, c] :: chunk3 rest.flatten = [a, b, c] :: rest
      rw [ih (fun x hx => h3 x (List.mem_cons_of_mem _ hx))]

/-- C6: feature extraction applied to the flat row-major accelerometer
sequence produces exactly the same output (in particular the same 24
per-axis statistics) as feature extraction applied to the equivalent nested
form, the heart-rate input being held fixed. -/
theorem claim_C6 (P : NumPrims) (hr : List ℚ) (rows : List (List ℚ))
    (h3 : ∀ r ∈ rows, r.length = 3) :
    extract_features P hr (some (.flat rows.flatten)) =
      extract_features P hr (some (.nested rows)) := by
  cases rows with
  | nil => rfl
  | cons r rest =>
    have hr3 : r.length = 3 := h3 r (List.mem_cons_self r rest)
    have hmod : ((r :: rest).flatten).length % 3 = 0 := flatten_length_mod3 _ h3
    have hchunk : chunk3 ((r :: rest).flatten) = r :: rest := chunk3_flatten _ h3
    have hall : (r :: rest).all (fun s => decide (s.length = 3)) = true :=
      List.all_eq_true.mpr (fun x hx => decide_eq_true (h3 x hx))
    have hpos : 0 < ((r :: rest).flatten).length := by
      rw [List.flatten_cons, List.length_append, hr3]
      omega
    have hhead : (((r :: rest).head?.map List.length).getD 0) = 3 := by
      simp [hr3]
    have e1 : reshapeAcc (.flat ((r :: rest).flatten)) = .ok (r :: rest) := by
      simp only [reshapeAcc]
      rw [if_pos hmod, hchunk]
    have e2 : reshapeAcc (.nested (r :: rest)) = .ok (r :: rest) := by
      simp only [reshapeAcc]
      rw [if_pos hhead, if_pos hall]
    have go : ∀ a : AccData, 0 < accLen a → reshapeAcc a = .ok (r :: rest) →
        extract_features P hr (some a) = .ok (statBlock P hr ++
          (statBlock P (col 0 (r :: rest)) ++
            (statBlock P (col 1 (r :: rest)) ++ statBlock P (col 2 (r :: rest))))) := by
      intro a hpa hra
      simp only [extract_features]
      rw [if_pos hpa, hra]
    rw [go _ (by simpa only [accLen] using hpos) e1, go _ (by simp [accLen]) e2]

/-- Witness for C6 on the example pair `[1,2,3,4,5,6]` versus
`[[1,2,3],[4,5,6]]`. -/
theorem claim_C6_witness :
    extract_features ⟨fun _ => 0, fun _ => 0⟩ [70] (some (.flat [1, 2, 3, 4, 5, 6])) =
      extract_features ⟨fun _ => 0, fun _ => 0⟩ [70]
        (some (.nested [[1, 2, 3], [4, 5, 6]])) := by
  have h := claim_C6 ⟨fun _ => 0, fun _ => 0⟩ [70] [[1, 2, 3], [4, 5, 6]] (by decide)
  simpa using h

/-- C4: for every accelerometer input given as a flat sequence whose length
is not divisible by 3, feature extraction fails with the reshape error (it
never returns a feature vector, so it never silently truncates, zero-pads or
zero-fills), and the prediction endpoint reports that error to the caller as
an error response. -/
theorem claim_C4 (P : NumPrims) (xs : List ℚ) (hlen : xs.length % 3 ≠ 0) :
    (∀ hr : List ℚ, extract_features P hr (some (.flat xs)) = .error "cannot reshape array" ∧
      ∀ v, extract_features P hr (some (.flat xs)) ≠ .ok v) ∧
    ∀ (M : Models) (synth : ℚ → List ℚ) (hrs : List ℚ), hrs ≠ [] →
      predict_mood M P synth ⟨some (.seq hrs), some (.flat xs)⟩ =
        .err 500 "cannot reshape array" := by
  have hpos : 0 < accLen (.flat xs) := by
    simp only [accLen]
    omega
  have herr : reshapeAcc (.flat xs) = .error "cannot reshape array" := by
    simp only [reshapeAcc]
    rw [if_neg hlen]
  have hext : ∀ hr : List ℚ,
      extract_features P hr (some (.flat xs)) = .error "cannot reshape array" := by
    intro hr
    simp [extract_features, herr, hpos]
  refine ⟨fun hr => ⟨hext hr, fun v hv => by rw [hext hr] at hv; exact Except.noConfusion hv⟩, ?_⟩
  intro M synth hrs hhrs
  have htr : hrTruthy (some (.seq hrs)) = true := by
    simp [hrTruthy, hhrs]
  simp [predict_mood, htr, hext hrs]

/-- Witness for C4 at the length-7 flat accelerometer input of the spec. -/
theorem claim_C4_witness :
    extract_features ⟨fun _ => 0, fun _ => 0⟩ [70]
        (some (.flat [1, 2, 3, 4, 5, 6, 7])) = .error "cannot reshape array" ∧
    predict_mood ⟨id, id, fun _ => 0, fun _ => 0, fun _ => [], fun _ => []⟩
        ⟨fun _ => 0, fun _ => 0⟩ (fun _ => [])
        ⟨some (.seq [70]), some (.flat [1, 2, 3, 4, 5, 6, 7])⟩ =
      .err 500 "cannot reshape array" := by
  have h := claim_C4 ⟨fun _ => 0, fun _ => 0⟩ [1, 2, 3, 4, 5, 6, 7] (by decide)
  exact ⟨(h.1 [70]).1, h.2 _ _ [70] (by simp)⟩

theorem argmaxIdx_spec4 (w x y z : ℚ) :
    argmaxIdx [w, x, y, z] < 4 ∧
    (∀ i, i < 4 → [w, x, y, z].getD i 0 ≤ [w, x, y, z].getD (argmaxIdx [w, x, y, z]) 0) ∧
    (∀ j, j < argmaxIdx [w, x, y, z] →
      [w, x, y, z].getD j 0 < [w, x, y, z].getD (argmaxIdx [w, x, y, z]) 0) := by
  have hr4 : List.range ([w, x, y, z] : List ℚ).length = [0, 1, 2, 3] := rfl
  simp only [argmaxIdx, hr4, List.foldl_cons, List.foldl_nil,
    apply_ite (fun n => ([w, x, y, z] : List ℚ).getD n 0),
    List.getD_eq_getElem?_getD]
  simp only [List.getElem?_cons_zero, List.getElem?_cons_succ, Option.getD_some]
  split_ifs <;>
    refine ⟨by norm_num, ?_, ?_⟩ <;> intro i hi <;> interval_cases i <;>
    simp_all only [List.getD_eq_getElem?_getD, List.getElem?_cons_zero,
      List.getElem?_cons_succ, Option.getD_some] <;> linarith

/-- C1: for every pair of 4-element class-probability vectors, the ensemble
blend is `combined[i] = 0.6 * proba1[i] + 0.4 * proba2[i]` for each class
index, and the index used for the primary mood, `argmaxIdx combined`, is a
valid `MOOD_NAMES` index attaining the maximum of `combined`, every class
before it being strictly smaller (ties broken by the lowest class index). -/
theorem claim_C1 (a b c d e f g h : ℚ) :
    combineProba [a, b, c, d] [e, f, g, h] =
      .ok [0.6 * a + 0.4 * e, 0.6 * b + 0.4 * f, 0.6 * c + 0.4 * g, 0.6 * d + 0.4 * h] ∧
    argmaxIdx [0.6 * a + 0.4 * e, 0.6 * b + 0.4 * f, 0.6 * c + 0.4 * g, 0.6 * d + 0.4 * h] <
      MOOD_NAMES.length ∧
    (∃ m, MOOD_NAMES.get? (argmaxIdx [0.6 * a + 0.4 * e, 0.6 * b + 0.4 * f,
      0.6 * c + 0.4 * g, 0.6 * d + 0.4 * h]) = some m) ∧
    (∀ i, i < 4 →
      [0.6 * a + 0.4 * e, 0.6 * b + 0.4 * f, 0.6 * c + 0.4 * g, 0.6 * d + 0.4 * h].getD i 0 ≤
      [0.6 * a + 0.4 * e, 0.6 * b + 0.4 * f, 0.6 * c + 0.4 * g, 0.6 * d + 0.4 * h].getD
        (argmaxIdx [0.6 * a + 0.4 * e, 0.6 * b + 0.4 * f, 0.6 * c + 0.4 * g,
          0.6 * d + 0.4 * h]) 0) ∧
    (∀ j, j < argmaxIdx [0.6 * a + 0.4 * e, 0.6 * b + 0.4 * f, 0.6 * c + 0.4 * g,
        0.6 * d + 0.4 * h] →
      [0.6 * a + 0.4 * e, 0.6 * b + 0.4 * f, 0.6 * c + 0.4 * g, 0.6 * d + 0.4 * h].getD j 0 <
      [0.6 * a + 0.4 * e, 0.6 * b + 0.4 * f, 0.6 * c + 0.4 * g, 0.6 * d + 0.4 * h].getD
        (argmaxIdx [0.6 * a + 0.4 * e, 0.6 * b + 0.4 * f, 0.6 * c + 0.4 * g,
          0.6 * d + 0.4 * h]) 0) := by
  obtain ⟨h4, hmax, hfirst⟩ :=
    argmaxIdx_spec4 (0.6 * a + 0.4 * e) (0.6 * b + 0.4 * f) (0.6 * c + 0.4 * g) (0.6 * d + 0.4 * h)
  refine ⟨rfl, h4, ⟨_, List.get?_eq_get (show _ < MOOD_NAMES.length from h4)⟩, hmax, hfirst⟩

/-- Witness for C1 at the stub probability vectors of the spec. -/
theorem claim_C1_witness :
    combineProba [(0.7 : ℚ), 0.1, 0.1, 0.1] [0.5, 0.2, 0.2, 0.1] =
      .ok [0.6 * 0.7 + 0.4 * 0.5, 0.6 * 0.1 + 0.4 * 0.2, 0.6 * 0.1 + 0.4 * 0.2,
        0.6 * 0.1 + 0.4 * 0.1] ∧
    argmaxIdx [0.6 * 0.7 + 0.4 * 0.5, 0.6 * 0.1 + 0.4 * 0.2, 0.6 * 0.1 + 0.4 * 0.2,
      0.6 * 0.1 + 0.4 * 0.1] < MOOD_NAMES.length ∧
    (∃ m, MOOD_NAMES.get? (argmaxIdx [0.6 * 0.7 + 0.4 * 0.5, 0.6 * 0.1 + 0.4 * 0.2,
      0.6 * 0.1 + 0.4 * 0.2, 0.6 * 0.1 + 0.4 * 0.1]) = some m) ∧
    (∀ i, i < 4 →
      ([0.6 * 0.7 + 0.4 * 0.5, 0.6 * 0.1 + 0.4 * 0.2, 0.6 * 0.1 + 0.4 * 0.2,
        0.6 * 0.1 + 0.4 * 0.1] : List ℚ).getD i 0 ≤
      [0.6 * 0.7 + 0.4 * 0.5, 0.6 * 0.1 + 0.4 * 0.2, 0.6 * 0.1 + 0.4 * 0.2,
        0.6 * 0.1 + 0.4 * 0.1].getD (argmaxIdx [0.6 * 0.7 + 0.4 * 0.5, 0.6 * 0.1 + 0.4 * 0.2,
          0.6 * 0.1 + 0.4 * 0.2, 0.6 * 0.1 + 0.4 * 0.1]) 0) ∧
    (∀ j, j < argmaxIdx [0.6 * 0.7 + 0.4 * 0.5, 0.6 * 0.1 + 0.4 * 0.2, 0.6 * 0.1 + 0.4 * 0.2,
        0.6 * 0.1 + 0.4 * 0.1] →
      ([0.6 * 0.7 + 0.4 * 0.5, 0.6 * 0.1 + 0.4 * 0.2, 0.6 * 0.1 + 0.4 * 0.2,
        0.6 * 0.1 + 0.4 * 0.1] : List ℚ).getD j 0 <
      [0.6 * 0.7 + 0.4 * 0.5, 0.6 * 0.1 + 0.4 * 0.2, 0.6 * 0.1 + 0.4 * 0.2,
        0.6 * 0.1 + 0.4 * 0.1].getD (argmaxIdx [0.6 * 0.7 + 0.4 * 0.5, 0.6 * 0.1 + 0.4 * 0.2,
          0.6 * 0.1 + 0.4 * 0.2, 0.6 * 0.1 + 0.4 * 0.1]) 0) :=
  claim_C1 0.7 0.1 0.1 0.1 0.5 0.2 0.2 0.1

/-- C8: whenever the 4-element probability vector of each model sums to 1, the
blended probabilities (the four values of the returned confidence map) sum
to exactly 1 over exact rational arithmetic, hence within the 1e-6
tolerance. -/
theorem claim_C8 (a b c d e f g h : ℚ) (h1 : a + b + c + d = 1) (h2 : e + f + g + h = 1) :
    ∃ comb, combineProba [a, b, c, d] [e, f, g, h] = .ok comb ∧
      comb.sum = 1 ∧ |comb.sum - 1| ≤ 1/1000000 ∧
      ((confidenceMap comb).map Prod.snd).sum = 1 := by
  have hsum : ([0.6 * a + 0.4 * e, 0.6 * b + 0.4 * f, 0.6 * c + 0.4 * g,
      0.6 * d + 0.4 * h] : List ℚ).sum = 1 := by
    simp only [List.sum_cons, List.sum_nil]
    linarith
  have hrange : List.range MOOD_NAMES.length = [0, 1, 2, 3] := rfl
  have hconf : ((confidenceMap [0.6 * a + 0.4 * e, 0.6 * b + 0.4 * f, 0.6 * c + 0.4 * g,
      0.6 * d + 0.4 * h]).map Prod.snd).sum = 1 := by
    simp only [confidenceMap, hrange, List.map_cons, List.map_nil, List.sum_cons, List.sum_nil,
      List.getD_eq_getElem?_getD, List.getElem?_cons_zero, List.getElem?_cons_succ,
      Option.getD_some]
    linarith
  exact ⟨[0.6 * a + 0.4 * e, 0.6 * b + 0.4 * f, 0.6 * c + 0.4 * g, 0.6 * d + 0.4 * h],
    rfl, hsum, by rw [hsum]; norm_num, hconf⟩

/-- Witness for C8 at two concrete probability distributions. -/
theorem claim_C8_witness :
    ∃ comb, combineProba [(0.7 : ℚ), 0.1, 0.1, 0.1] [0.5, 0.2, 0.2, 0.1] = .ok comb ∧
      comb.sum = 1 ∧ |comb.sum - 1| ≤ 1/1000000 ∧
      ((confidenceMap comb).map Prod.snd).sum = 1 :=
  claim_C8 0.7 0.1 0.1 0.1 0.5 0.2 0.2 0.1 (by norm_num) (by norm_num)

/-- C3: the secondary mood is the MoodLabel at the second-from-last position
of the full ascending argsort of the combined vector; for the stub model
outputs `proba1 = [0.7, 0.1, 0.1, 0.1]` and `proba2 = [0.5, 0.2, 0.2, 0.1]`,
combined is exactly `[0.62, 0.14, 0.14, 0.10]`, the primary mood is Happy,
and the secondary mood is one of the two classes tied at 0.14 (Angry or
Sad — the stable ascending argsort `[3, 1, 2, 0]` selects Sad); running the
full endpoint on the 10-sample heart-rate window of the spec with these stub
artifacts returns primary Happy and that secondary. -/
theorem claim_C3 :
    combineProba [(0.7 : ℚ), 0.1, 0.1, 0.1] [0.5, 0.2, 0.2, 0.1] =
      .ok [0.62, 0.14, 0.14, 0.10] ∧
    argsortIdx [(0.62 : ℚ), 0.14, 0.14, 0.10] = [3, 1, 2, 0] ∧
    secondaryIdx [(0.62 : ℚ), 0.14, 0.14, 0.10] = 2 ∧
    argmaxIdx [(0.62 : ℚ), 0.14, 0.14, 0.10] = 0 ∧
    MOOD_NAMES.get? (argmaxIdx [(0.62 : ℚ), 0.14, 0.14, 0.10]) = some "Happy" ∧
    (MOOD_NAMES.get? (secondaryIdx [(0.62 : ℚ), 0.14, 0.14, 0.10]) = some "Angry" ∨
     MOOD_NAMES.get? (secondaryIdx [(0.62 : ℚ), 0.14, 0.14, 0.10]) = some "Sad") ∧
    predict_mood ⟨fun v => v, fun v => v, fun _ => 0, fun _ => 0,
        fun _ => [0.7, 0.1, 0.1, 0.1], fun _ => [0.5, 0.2, 0.2, 0.1]⟩
      ⟨fun _ => 0, fun _ => 0⟩ (fun _ => [])
      ⟨some (.seq [70, 72, 68, 75, 71, 69, 73, 70, 72, 71]), none⟩ =
      .ok "Happy" "Sad" "Happy" "Happy"
        [("Happy", 0.62), ("Angry", 0.14), ("Sad", 0.14), ("Relaxed", 0.10)] := by
  have hcomb : combineProba [(0.7 : ℚ), 0.1, 0.1, 0.1] [0.5, 0.2, 0.2, 0.1] =
      .ok [0.62, 0.14, 0.14, 0.10] := by
    simp only [combineProba, List.zipWith]
    norm_num
  have hsort : argsortIdx [(0.62 : ℚ), 0.14, 0.14, 0.10] = [3, 1, 2, 0] := by
    norm_num [argsortIdx, insertByVal, List.foldl, List.getD_eq_getElem?_getD]
  have hsec : secondaryIdx [(0.62 : ℚ), 0.14, 0.14, 0.10] = 2 := by
    simp [secondaryIdx, hsort]
  have hmax : argmaxIdx [(0.62 : ℚ), 0.14, 0.14, 0.10] = 0 := by
    norm_num [argmaxIdx, List.foldl, List.getD_eq_getElem?_getD]
  have hrg : List.range MOOD_NAMES.length = [0, 1, 2, 3] := rfl
  have hconf : confidenceMap [(0.62 : ℚ), 0.14, 0.14, 0.10] =
      [("Happy", 0.62), ("Angry", 0.14), ("Sad", 0.14), ("Relaxed", 0.10)] := by
    simp [confidenceMap, hrg, MOOD_NAMES, List.getD_eq_getElem?_getD,
      show List.range 4 = [0, 1, 2, 3] from rfl]
  refine ⟨hcomb, hsort, hsec, hmax, by rw [hmax]; rfl, Or.inr (by rw [hsec]; rfl), ?_⟩
  simp only [predict_mood, hrTruthy, extract_features, List.isEmpty_cons, Bool.not_false,
    if_true]
  simp only [hcomb, hmax, hsec]
  rw [hconf]
  rfl

theorem histDensity_nonneg (data : List ℚ) (h : minQ data ≤ maxQ data) :
    ∀ q ∈ histDensity data, 0 ≤ q := by
  intro q hq
  simp only [histDensity, List.mem_map] at hq
  obtain ⟨i, _, rfl⟩ := hq
  apply div_nonneg
  · exact Nat.cast_nonneg _
  · apply mul_nonneg (Nat.cast_nonneg _)
    apply div_nonneg _ (by norm_num)
    split_ifs with he
    · linarith
    · linarith

theorem histDensity_length (data : List ℚ) : (histDensity data).length = 10 := by
  simp only [histDensity, List.length_map, List.length_range]

/-- C7: skewness is forced to exactly 0 whenever the sample count is below
3 and kurtosis whenever it is below 4; for the degenerate two-sample window
`[5, 5]` the std slot is exactly 0 (the variance is exactly 0), the skew and
kurtosis slots are 0, the smoothed histogram fed to entropy is strictly
positive in every bin with a strictly positive total (so the entropy slot is
a well-defined finite value with no zero-probability singularity and no
division by zero), and feature extraction succeeds without error. -/
theorem claim_C7 (P : NumPrims) (hs : P.sqrt 0 = 0) :
    (∀ hr : List ℚ, hr.length < 3 → (statBlock P hr).getD 5 0 = 0) ∧
    (∀ hr : List ℚ, hr.length < 4 → (statBlock P hr).getD 6 0 = 0) ∧
    (statBlock P [5, 5]).getD 1 0 = 0 ∧
    (statBlock P [5, 5]).getD 5 0 = 0 ∧
    (statBlock P [5, 5]).getD 6 0 = 0 ∧
    (∀ q ∈ (histDensity [5, 5]).map (fun q => q + 1/1000000), 0 < q) ∧
    0 < ((histDensity [5, 5]).map (fun q => q + 1/1000000)).sum ∧
    (statBlock P [5, 5]).getD 7 0 =
      entropyQ P ((histDensity [5, 5]).map (fun q => q + 1/1000000)) ∧
    ∃ v, extract_features P [5, 5] none = .ok v := by
  have hskew : ∀ hr : List ℚ, hr.length < 3 → (statBlock P hr).getD 5 0 = 0 := by
    intro hr hlen
    simp only [statBlock, List.getD_eq_getElem?_getD, List.getElem?_cons_zero,
      List.getElem?_cons_succ, Option.getD_some]
    rw [if_neg (by omega)]
  have hkurt : ∀ hr : List ℚ, hr.length < 4 → (statBlock P hr).getD 6 0 = 0 := by
    intro hr hlen
    simp only [statBlock, List.getD_eq_getElem?_getD, List.getElem?_cons_zero,
      List.getElem?_cons_succ, Option.getD_some]
    rw [if_neg (by omega)]
  have hvar : varianceQ [5, 5] = 0 := by
    norm_num [varianceQ, centralMoment, meanQ, List.sum_cons, List.sum_nil]
  have hstd : (statBlock P [5, 5]).getD 1 0 = 0 := by
    simp only [statBlock, List.getD_eq_getElem?_getD, List.getElem?_cons_zero,
      List.getElem?_cons_succ, Option.getD_some, stdQ]
    rw [hvar, hs]
  have hminmax : minQ [(5 : ℚ), 5] ≤ maxQ [(5 : ℚ), 5] := by
    simp [minQ, maxQ, List.foldl]
  have hnn := histDensity_nonneg [5, 5] hminmax
  have hpos : ∀ q ∈ (histDensity [5, 5]).map (fun q => q + 1/1000000), 0 < q := by
    intro q hq
    simp only [List.mem_map] at hq
    obtain ⟨p, hp, rfl⟩ := hq
    have := hnn p hp
    linarith
  have hsum : 0 < ((histDensity [5, 5]).map (fun q => q + 1/1000000)).sum := by
    apply List.sum_pos _ hpos
    have : ((histDensity [5, 5]).map (fun q => q + 1/1000000)).length = 10 := by
      rw [List.length_map, histDensity_length]
    intro hnil
    rw [hnil] at this
    simp at this
  refine ⟨hskew, hkurt, hstd, hskew [5, 5] (by norm_num), hkurt [5, 5] (by norm_num),
    hpos, hsum, ?_, ⟨_, rfl⟩⟩
  simp only [statBlock, List.getD_eq_getElem?_getD, List.getElem?_cons_zero,
    List.getElem?_cons_succ, Option.getD_some]

/-- Witness for C7: the forced-zero std, skew and kurtosis slots at the
concrete window `[5, 5]`, under the concrete primitive `sqrt 0 = 0`. -/
theorem claim_C7_witness :
    (statBlock ⟨fun _ => 0, fun _ => 0⟩ [5, 5]).getD 1 0 = 0 ∧
    (statBlock ⟨fun _ => 0, fun _ => 0⟩ [5, 5]).getD 5 0 = 0 ∧
    (statBlock ⟨fun _ => 0, fun _ => 0⟩ [5, 5]).getD 6 0 = 0 ∧
    0 < ((histDensity [5, 5]).map (fun q => q + 1/1000000)).sum :=
  ⟨(claim_C7 ⟨fun _ => 0, fun _ => 0⟩ rfl).2.2.1,
   (claim_C7 ⟨fun _ => 0, fun _ => 0⟩ rfl).2.2.2.1,
   (claim_C7 ⟨fun _ => 0, fun _ => 0⟩ rfl).2.2.2.2.1,
   (claim_C7 ⟨fun _ => 0, fun _ => 0⟩ rfl).2.2.2.2.2.2.1⟩

/-- C5 counterexample: with a classifier artifact that predicts the
out-of-range class index 5 (a class-count mismatch with the 4-class
`MOOD_NAMES`), a well-formed request to the inference endpoint is answered
with a per-request status-500 error — the mismatch is not detected at
artifact load time (lines 21-29 perform no class-count validation), it
surfaces from the inference operation itself. -/
theorem claim_C5_counterexample :
    predict_mood ⟨fun v => v, fun v => v, fun _ => 5, fun _ => 0,
        fun _ => [0.7, 0.1, 0.1, 0.1], fun _ => [0.5, 0.2, 0.2, 0.1]⟩
      ⟨fun _ => 0, fun _ => 0⟩ (fun _ => [])
      ⟨some (.seq [70, 72, 68]), none⟩ = .err 500 "list index out of range" := by
  have hcomb : combineProba [(0.7 : ℚ), 0.1, 0.1, 0.1] [0.5, 0.2, 0.2, 0.1] =
      .ok [0.62, 0.14, 0.14, 0.10] := by
    simp only [combineProba, List.zipWith]
    norm_num
  have hsort : argsortIdx [(0.62 : ℚ), 0.14, 0.14, 0.10] = [3, 1, 2, 0] := by
    norm_num [argsortIdx, insertByVal, List.foldl, List.getD_eq_getElem?_getD]
  have hsec : secondaryIdx [(0.62 : ℚ), 0.14, 0.14, 0.10] = 2 := by
    simp [secondaryIdx, hsort]
  have hmax : argmaxIdx [(0.62 : ℚ), 0.14, 0.14, 0.10] = 0 := by
    norm_num [argmaxIdx, List.foldl, List.getD_eq_getElem?_getD]
  simp only [predict_mood, hrTruthy, extract_features, List.isEmpty_cons, Bool.not_false,
    if_true]
  simp only [hcomb, hmax, hsec]
  rfl

/-- C5 amended: whenever feature extraction succeeds and the two probability
vectors have matching lengths, a first-model class prediction outside the
4-class range (index ≥ 4) makes the inference endpoint itself answer with a
per-request status-500 IndexError response; no class-count validation exists
at artifact load time. -/
theorem claim_C5_amended (M : Models) (P : NumPrims) (synth : ℚ → List ℚ)
    (hrs : List ℚ) (acc : Option AccData) (v : List ℚ)
    (hhr : hrs ≠ []) (hext : extract_features P hrs acc = .ok v)
    (hlen : (M.proba1 (M.scaler1 v)).length = (M.proba2 (M.scaler2 v)).length)
    (hpred : 4 ≤ M.predict1 (M.scaler1 v)) :
    predict_mood M P synth ⟨some (.seq hrs), acc⟩ = .err 500 "list index out of range" := by
  have htr : hrTruthy (some (.seq hrs)) = true := by
    simp [hrTruthy, hhr]
  have hget : MOOD_NAMES.get? (M.predict1 (M.scaler1 v)) = none := by
    apply List.get?_eq_none.mpr
    simpa [MOOD_NAMES] using hpred
  simp only [predict_mood, htr, if_true, hext]
  simp only [combineProba, if_pos hlen]
  cases hA : MOOD_NAMES.get? (argmaxIdx (List.zipWith (fun a b => 0.6 * a + 0.4 * b)
      (M.proba1 (M.scaler1 v)) (M.proba2 (M.scaler2 v)))) with
  | none => simp
  | some fm =>
    cases hB : MOOD_NAMES.get? (secondaryIdx (List.zipWith (fun a b => 0.6 * a + 0.4 * b)
        (M.proba1 (M.scaler1 v)) (M.proba2 (M.scaler2 v)))) with
    | none => simp
    | some sm =>
      by_cases hL : MOOD_NAMES.length ≤ (List.zipWith (fun a b => 0.6 * a + 0.4 * b)
          (M.proba1 (M.scaler1 v)) (M.proba2 (M.scaler2 v))).length
      · dsimp only
        rw [if_pos hL, hget]
      · dsimp only
        rw [if_neg hL]

/-- Witness for the amended C5, at a stub artifact pair whose first
classifier predicts class index 7. -/
theorem claim_C5_amended_witness :
    predict_mood ⟨fun v => v, fun v => v, fun _ => 7, fun _ => 0,
        fun _ => [0.7, 0.1, 0.1, 0.1], fun _ => [0.5, 0.2, 0.2, 0.1]⟩
      ⟨fun _ => 0, fun _ => 0⟩ (fun _ => [])
      ⟨some (.seq [70, 72, 68]), none⟩ = .err 500 "list index out of range" :=
  claim_C5_amended _ ⟨fun _ => 0, fun _ => 0⟩ (fun _ => []) [70, 72, 68] none _
    (by simp) rfl rfl (by norm_num)
